import Mathlib

/-!
Verification of the provisioning-orchestration and variable-synchronization
subsystem of the railway-mcp server.

The embedding below mirrors the TypeScript service layer:
* `copyVariables` and friends — `VariableService` (bulk upsert and
  environment-to-environment copy with an overwrite policy);
* `createDatabaseFromTemplate` — `DatabaseService` (template resolution,
  validation, and the six-step provisioning sequence);
* `listTemplatesNoQuery` / `deployTemplateResolve` — `TemplatesService`
  (catalog grouping and template resolution by identifier).

Remote behaviour is an oracle (`Remote`): each client call either throws
(`Except.error`, the promise rejecting) or returns a value; calls whose
result the service checks for JavaScript falsiness return `Bool` / `Option`.
Every remote call the service issues is recorded in an ordered trace of
`RemoteCall` / `VarCall` values, so "no mutation was issued" is a statement
about the trace.
-/

namespace RailwayMcp

/-- A variable scope: the entries of a JavaScript object mapping variable
names to values, in property order.  Keys are unique in the object the
remote returns; theorems that need this take a `Nodup` hypothesis. -/
abbrev Scope := List (String × String)

/-- JavaScript `key in obj`: key presence in a scope. -/
def containsKey (s : Scope) (k : String) : Bool :=
  s.any (fun p => p.1 == k)

/-- Value of a key in a scope (first binding wins, as in an object). -/
def lookupVar (s : Scope) (k : String) : Option String :=
  (s.find? (fun p => p.1 == k)).map Prod.snd

/-- Create-or-update of one key: the remote upsert semantics of
`variableUpsert` — replace the value if the key exists, else add it. -/
def upsert (s : Scope) (k v : String) : Scope :=
  if containsKey s k then
    s.map (fun p => if p.1 == k then (k, v) else p)
  else
    s ++ [(k, v)]

/-- Effect of `upsertVariables` (bulk upsert) on a scope: each entry is
applied in order with create-or-update semantics. -/
def bulkUpsert (s : Scope) (entries : Scope) : Scope :=
  entries.foldl (fun acc p => upsert acc p.1 p.2) s

/-- Remote calls issued by `VariableService.copyVariables`, in order. -/
inductive VarCall where
  | readSource
  | readTarget
  | bulkSet (entries : Scope)
deriving DecidableEq

/-- Result of a copy: the reported count, the target scope after the
operation, and the trace of remote calls issued. -/
structure CopyResult where
  copied : Nat
  target : Scope
  calls : List VarCall
deriving DecidableEq

/-- `VariableService.copyVariables` (src/unnamed/part_009, lines 102-153):
read the source scope; if empty return `copied: 0`; read the target scope;
compute `varsToSet` (all of source under `overwrite`, else the source
entries whose key is not `in` the target); if empty return `copied: 0`;
otherwise bulk-upsert `varsToSet` into the target and report its size. -/
def copyVariables (sourceVars targetVars : Scope) (overwrite : Bool) :
    CopyResult :=
  if sourceVars.isEmpty then
    { copied := 0, target := targetVars, calls := [VarCall.readSource] }
  else
    let varsToSet :=
      if overwrite then sourceVars
      else sourceVars.filter (fun p => !containsKey targetVars p.1)
    if varsToSet.isEmpty then
      { copied := 0, target := targetVars
        calls := [VarCall.readSource, VarCall.readTarget] }
    else
      { copied := varsToSet.length
        target := bulkUpsert targetVars varsToSet
        calls := [VarCall.readSource, VarCall.readTarget,
                  VarCall.bulkSet varsToSet] }

/-- All entries passed to `bulkSet` calls in a trace, concatenated. -/
def writtenEntries (calls : List VarCall) : Scope :=
  calls.foldr
    (fun c acc =>
      match c with
      | VarCall.bulkSet es => es ++ acc
      | _ => acc)
    []

/-! ### String helpers (JavaScript semantics) -/

/-- `charsHavePrefix pat l` is true when `pat` is an initial segment of `l`. -/
def charsHavePrefix : List Char → List Char → Bool
  | [], _ => true
  | _ :: _, [] => false
  | a :: as, b :: bs => a == b && charsHavePrefix as bs

/-- `listContainsChars pat l` is true when `pat` occurs contiguously in `l`. -/
def listContainsChars (pat : List Char) : List Char → Bool
  | [] => pat.isEmpty
  | c :: rest => charsHavePrefix pat (c :: rest) || listContainsChars pat rest

/-- JavaScript `s.includes(pat)`. -/
def strContainsSub (s pat : String) : Bool :=
  listContainsChars pat.data s.data

/-- JavaScript `s.startsWith(pat)`. -/
def strHasPrefix (s pat : String) : Bool :=
  charsHavePrefix pat.data s.data

/-- JavaScript `s.toLowerCase()` (character-wise lowercase). -/
def strToLower (s : String) : String :=
  String.mk (s.data.map Char.toLower)

/-- JavaScript truthiness of a possibly-absent string: `undefined` and the
empty string are falsy. -/
def jsStrTruthy : Option String → Bool
  | none => false
  | some s => !(s == "")

/-- JavaScript `a || b` for a possibly-absent string `a` with string
fallback `b`: `b` is taken when `a` is `undefined` or empty. -/
def jsOrStr (a : Option String) (b : String) : String :=
  match a with
  | some s => if s == "" then b else s
  | none => b

/-! ### Template catalog data model

The raw template payload, as declared by the `DatabaseTemplate` interface in
src/src/services/database.service.ts (the `category` field is optional
there, and the dynamic nested `serializedConfig.services` record becomes an
ordered list of slot-key/slot-config pairs, the order of
`Object.entries`). -/

/-- One service slot of a template's serialized configuration. -/
structure ServiceSlotConfig where
  name : Option String
  sourceImage : Option String
  tcpProxyPorts : Option (List (Option Nat))
  slotVariables : Option (List (String × String))
  volumeMounts : Option (List String)
deriving DecidableEq

/-- A template as fetched from the catalog. -/
structure DatabaseTemplate where
  id : String
  name : String
  description : String
  category : Option String
  services : List (String × ServiceSlotConfig)
deriving DecidableEq

/-- `template.category?.toLowerCase().includes('storage') ||
template.category?.toLowerCase().includes('database')` — the classifier the
database paths filter with; falsy when `category` is absent. -/
def categoryMatchesStorage (c : Option String) : Bool :=
  match c with
  | some s =>
      strContainsSub (strToLower s) "storage"
        || strContainsSub (strToLower s) "database"
  | none => false

/-- Template resolution of `DatabaseService.createDatabaseFromTemplate`
(lines 99-105): filter the catalog by the storage/database classifier, then
find the first template with the requested identifier. -/
def databaseTemplateFind (templates : List DatabaseTemplate) (id : String) :
    Option DatabaseTemplate :=
  (templates.filter (fun t => categoryMatchesStorage t.category)).find?
    (fun t => t.id == id)

/-- Template resolution of `TemplatesService.deployTemplate` (line 203):
find by identifier over the whole catalog, no category filter. -/
def findTemplateById (templates : List DatabaseTemplate) (templateId : String) :
    Option DatabaseTemplate :=
  templates.find? (fun t => t.id == templateId)

/-- `TemplatesService.deployTemplate`, resolution step (lines 201-207):
the found template, or the `Template not found` error. -/
def deployTemplateResolve (templates : List DatabaseTemplate)
    (templateId : String) : Except String DatabaseTemplate :=
  match findTemplateById templates templateId with
  | none => Except.error ("Template not found: " ++ templateId)
  | some t => Except.ok t

/-! ### Catalog grouping (`TemplatesService.listTemplates`, no query) -/

/-- JavaScript property-key coercion of `template.category`: an absent
category indexes the accumulator object at the literal key "undefined". -/
def jsPropKey (c : Option String) : String :=
  match c with
  | some s => s
  | none => "undefined"

/-- Whether the accumulator object already has a bucket for `k`. -/
def bucketHasKey (acc : List (String × List DatabaseTemplate)) (k : String) :
    Bool :=
  acc.any (fun p => p.1 == k)

/-- `if (!acc[key]) acc[key] = []; acc[key].push(template)`. -/
def bucketAdd (acc : List (String × List DatabaseTemplate)) (k : String)
    (t : DatabaseTemplate) : List (String × List DatabaseTemplate) :=
  if bucketHasKey acc k then
    acc.map (fun p => if p.1 == k then (p.1, p.2 ++ [t]) else p)
  else
    acc ++ [(k, [t])]

/-- The bucket stored at key `k` (empty when the key is absent). -/
def bucketGet (acc : List (String × List DatabaseTemplate)) (k : String) :
    List DatabaseTemplate :=
  ((acc.find? (fun p => p.1 == k)).map Prod.snd).getD []

/-- The grouping reduce of `TemplatesService.listTemplates`
(lines 178-184). -/
def groupTemplatesByCategory (templates : List DatabaseTemplate) :
    List (String × List DatabaseTemplate) :=
  templates.foldl (fun acc t => bucketAdd acc (jsPropKey t.category) t) []

/-- `TemplatesService.listTemplates` with no search query (lines 155-186):
the fuzzy-search branch is skipped and the full catalog is grouped by
category. -/
def listTemplatesNoQuery (templates : List DatabaseTemplate) :
    List (String × List DatabaseTemplate) :=
  groupTemplatesByCategory templates

/-! ### Provisioning orchestration (`DatabaseService.createDatabaseFromTemplate`) -/

/-- The compute service the remote platform creates (its identifier is
assigned remotely). -/
structure CreatedService where
  id : String
deriving DecidableEq

deriving instance DecidableEq for Except

/-- One element of the input array handed to the remote bulk variable
upsert. -/
structure VariableUpsertInput where
  projectId : String
  environmentId : String
  serviceId : Option String
  name : String
  value : String
deriving DecidableEq

/-- The inputs built from a slot's variable descriptors (lines 133-141):
each `name → defaultValue` pair, scoped to the created service. -/
def mkVariableInputs (projectId environmentId serviceId : String)
    (vars : List (String × String)) : List VariableUpsertInput :=
  vars.map (fun p =>
    { projectId := projectId, environmentId := environmentId
      serviceId := some serviceId, name := p.1, value := p.2 })

/-- A remote API call the service layer can issue.  The deletion calls
exist in the client API but are never issued by the orchestrator. -/
inductive RemoteCall where
  | createService (projectId name image : String)
  | upsertVariables (inputs : List VariableUpsertInput)
  | getServiceInstance (serviceId environmentId : String)
  | updateServiceInstance (serviceId environmentId region : String)
  | tcpProxyCreate (environmentId serviceId : String) (applicationPort : Nat)
  | createVolume (projectId environmentId serviceId mountPath : String)
  | deleteService (serviceId : String)
  | deleteVolume (volumeId : String)
  | tcpProxyDelete (proxyId : String)
deriving DecidableEq

/-- Whether a call deletes a previously created sub-resource. -/
def RemoteCall.isDeletion : RemoteCall → Bool
  | RemoteCall.deleteService _ => true
  | RemoteCall.deleteVolume _ => true
  | RemoteCall.tcpProxyDelete _ => true
  | _ => false

/-- Whether a call mutates remote state (everything but the instance
read). -/
def RemoteCall.isMutation : RemoteCall → Bool
  | RemoteCall.getServiceInstance _ _ => false
  | _ => true

/-- Oracle for remote behaviour: each field gives the outcome of one client
call.  `Except.error` is the promise rejecting; for the calls whose result
the service checks for falsiness, `Bool` (or `false`) models a null-ish
resolved value. -/
structure Remote where
  createService : String → String → String → Except String CreatedService
  upsertVariables : List VariableUpsertInput → Except String Unit
  getServiceInstance : String → String → Except String Bool
  updateServiceInstance : String → String → String → Except String Bool
  tcpProxyCreate : String → String → Nat → Except String Bool
  createVolume : String → String → String → String → Except String Bool

/-- The `UserError`s `createDatabaseFromTemplate` can raise; the last
constructor is the catch-all wrapper around a thrown client error. -/
inductive ProvisionError where
  | unsupportedDatabase
  | noServicesFound
  | noImageSource
  | serviceInstanceNotFound
  | updateServiceInstanceFailed (serviceId environmentId : String)
  | proxyCreateFailed (serviceId environmentId : String)
  | volumeCreateFailed (serviceId environmentId : String)
  | errorCreatingDatabase (cause : String)
deriving DecidableEq

/-- The user-facing message of each error, exactly as in the source. -/
def renderProvisionError : ProvisionError → String
  | ProvisionError.unsupportedDatabase => "Unsupported database"
  | ProvisionError.noServicesFound => "Invalid database template: No services found"
  | ProvisionError.noImageSource => "Invalid database template: No image source found"
  | ProvisionError.serviceInstanceNotFound => "Service instance not found."
  | ProvisionError.updateServiceInstanceFailed sid eid =>
      "Error updating service instance: Failed to update service instance of "
        ++ sid ++ " in environment " ++ eid
  | ProvisionError.proxyCreateFailed sid eid =>
      "Error creating proxy: Failed to create proxy for " ++ sid
        ++ " in environment " ++ eid
  | ProvisionError.volumeCreateFailed sid eid =>
      "Error creating volume: Failed to create volume for " ++ sid
        ++ " in environment " ++ eid
  | ProvisionError.errorCreatingDatabase _ => "Error creating database"

/-- The application port for the proxy (lines 168-174): the first declared
TCP-proxy descriptor's port, with 5432 as the fallback at every level. -/
def templatePort (slot : ServiceSlotConfig) : Nat :=
  match slot.tcpProxyPorts with
  | none => 5432
  | some [] => 5432
  | some (p :: _) => p.getD 5432

/-- The volume mount path (lines 188-190):
`Object.values(volumeMounts || {})[0]?.mountPath || '/data'`. -/
def templateMountPath (slot : ServiceSlotConfig) : String :=
  match slot.volumeMounts with
  | some (p :: _) => if p == "" then "/data" else p
  | _ => "/data"

/-- Steps 4-6 of the provisioning sequence (lines 146-203), shared by the
with-variables and no-variables paths: instance lookup, region update,
proxy creation, volume creation, then the created service is returned. -/
def provisionAfterVariables (remote : Remote)
    (projectId region environmentId : String) (service : CreatedService)
    (serviceConfig : ServiceSlotConfig) (calls : List RemoteCall) :
    Except ProvisionError CreatedService × List RemoteCall :=
  match remote.getServiceInstance service.id environmentId with
  | Except.error e =>
      (Except.error (ProvisionError.errorCreatingDatabase e),
        calls ++ [RemoteCall.getServiceInstance service.id environmentId])
  | Except.ok false =>
      (Except.error ProvisionError.serviceInstanceNotFound,
        calls ++ [RemoteCall.getServiceInstance service.id environmentId])
  | Except.ok true =>
    match remote.updateServiceInstance service.id environmentId region with
    | Except.error e =>
        (Except.error (ProvisionError.errorCreatingDatabase e),
          calls ++ [RemoteCall.getServiceInstance service.id environmentId,
            RemoteCall.updateServiceInstance service.id environmentId region])
    | Except.ok false =>
        (Except.error
            (ProvisionError.updateServiceInstanceFailed service.id environmentId),
          calls ++ [RemoteCall.getServiceInstance service.id environmentId,
            RemoteCall.updateServiceInstance service.id environmentId region])
    | Except.ok true =>
      match remote.tcpProxyCreate environmentId service.id
          (templatePort serviceConfig) with
      | Except.error e =>
          (Except.error (ProvisionError.errorCreatingDatabase e),
            calls ++ [RemoteCall.getServiceInstance service.id environmentId,
              RemoteCall.updateServiceInstance service.id environmentId region,
              RemoteCall.tcpProxyCreate environmentId service.id
                (templatePort serviceConfig)])
      | Except.ok false =>
          (Except.error
              (ProvisionError.proxyCreateFailed service.id environmentId),
            calls ++ [RemoteCall.getServiceInstance service.id environmentId,
              RemoteCall.updateServiceInstance service.id environmentId region,
              RemoteCall.tcpProxyCreate environmentId service.id
                (templatePort serviceConfig)])
      | Except.ok true =>
        match remote.createVolume projectId environmentId service.id
            (templateMountPath serviceConfig) with
        | Except.error e =>
            (Except.error (ProvisionError.errorCreatingDatabase e),
              calls ++ [RemoteCall.getServiceInstance service.id environmentId,
                RemoteCall.updateServiceInstance service.id environmentId region,
                RemoteCall.tcpProxyCreate environmentId service.id
                  (templatePort serviceConfig),
                RemoteCall.createVolume projectId environmentId service.id
                  (templateMountPath serviceConfig)])
        | Except.ok false =>
            (Except.error
                (ProvisionError.volumeCreateFailed service.id environmentId),
              calls ++ [RemoteCall.getServiceInstance service.id environmentId,
                RemoteCall.updateServiceInstance service.id environmentId region,
                RemoteCall.tcpProxyCreate environmentId service.id
                  (templatePort serviceConfig),
                RemoteCall.createVolume projectId environmentId service.id
                  (templateMountPath serviceConfig)])
        | Except.ok true =>
            (Except.ok service,
              calls ++ [RemoteCall.getServiceInstance service.id environmentId,
                RemoteCall.updateServiceInstance service.id environmentId region,
                RemoteCall.tcpProxyCreate environmentId service.id
                  (templatePort serviceConfig),
                RemoteCall.createVolume projectId environmentId service.id
                  (templateMountPath serviceConfig)])

/-- `DatabaseService.createDatabaseFromTemplate` (lines 88-210): resolve
the template through the category-filtered find, validate the first slot,
then run the provisioning sequence, recording every remote call issued.
The catalog read has already happened (`templates` is its result); the
returned trace is everything issued after it. -/
def createDatabaseFromTemplate (remote : Remote)
    (templates : List DatabaseTemplate)
    (projectId id region environmentId : String) (name : Option String) :
    Except ProvisionError CreatedService × List RemoteCall :=
  match databaseTemplateFind templates id with
  | none => (Except.error ProvisionError.unsupportedDatabase, [])
  | some template =>
    match template.services with
    | [] => (Except.error ProvisionError.noServicesFound, [])
    | (_, serviceConfig) :: _ =>
      match serviceConfig.sourceImage with
      | none => (Except.error ProvisionError.noImageSource, [])
      | some image =>
        if image == "" then
          (Except.error ProvisionError.noImageSource, [])
        else
          match remote.createService projectId
              (jsOrStr name (jsOrStr serviceConfig.name template.name)) image with
          | Except.error e =>
              (Except.error (ProvisionError.errorCreatingDatabase e),
                [RemoteCall.createService projectId
                  (jsOrStr name (jsOrStr serviceConfig.name template.name))
                  image])
          | Except.ok service =>
            match serviceConfig.slotVariables with
            | some vars =>
              match remote.upsertVariables
                  (mkVariableInputs projectId environmentId service.id vars) with
              | Except.error e =>
                  (Except.error (ProvisionError.errorCreatingDatabase e),
                    [RemoteCall.createService projectId
                        (jsOrStr name (jsOrStr serviceConfig.name template.name))
                        image,
                      RemoteCall.upsertVariables
                        (mkVariableInputs projectId environmentId service.id
                          vars)])
              | Except.ok _ =>
                  provisionAfterVariables remote projectId region environmentId
                    service serviceConfig
                    [RemoteCall.createService projectId
                        (jsOrStr name (jsOrStr serviceConfig.name template.name))
                        image,
                      RemoteCall.upsertVariables
                        (mkVariableInputs projectId environmentId service.id
                          vars)]
            | none =>
                provisionAfterVariables remote projectId region environmentId
                  service serviceConfig
                  [RemoteCall.createService projectId
                    (jsOrStr name (jsOrStr serviceConfig.name template.name))
                    image]

/-! ### Concrete fixtures for witnesses and counterexamples -/

/-- Source scope of the spec's concrete copy scenario. -/
def exSource : Scope := [("A", "1"), ("B", "2")]

/-- Target scope of the spec's concrete copy scenario. -/
def exTarget : Scope := [("B", "9")]

/-- A postgres-like database template slot. -/
def pgSlot : ServiceSlotConfig :=
  { name := some "postgres"
    sourceImage := some "postgres:16"
    tcpProxyPorts := some [some 5432]
    slotVariables := some [("PGDATA", "/var/lib/postgresql/data")]
    volumeMounts := some ["/var/lib/postgresql/data"] }

/-- A postgres-like database template. -/
def pgTemplate : DatabaseTemplate :=
  { id := "pg", name := "PostgreSQL", description := "relational database"
    category := some "Database", services := [("s0", pgSlot)] }

/-- A storage-category template with an empty service record. -/
def emptyServicesTemplate : DatabaseTemplate :=
  { id := "empty", name := "Empty", description := ""
    category := some "Storage", services := [] }

/-- A non-database template (category does not match the classifier). -/
def computeTemplate : DatabaseTemplate :=
  { id := "t-compute", name := "Node App", description := "web service"
    category := some "Deploy", services := [("s0", pgSlot)] }

/-- A template with no category field. -/
def noCategoryTemplate : DatabaseTemplate :=
  { id := "t9", name := "Mystery", description := ""
    category := none, services := [] }

/-- A remote on which every provisioning call succeeds. -/
def remoteHappy : Remote :=
  { createService := fun _ _ _ => Except.ok { id := "svc-123" }
    upsertVariables := fun _ => Except.ok ()
    getServiceInstance := fun _ _ => Except.ok true
    updateServiceInstance := fun _ _ _ => Except.ok true
    tcpProxyCreate := fun _ _ _ => Except.ok true
    createVolume := fun _ _ _ _ => Except.ok true }

/-- Like `remoteHappy`, but the proxy-creation call throws. -/
def remoteProxyThrows : Remote :=
  { remoteHappy with tcpProxyCreate := fun _ _ _ => Except.error "network failure" }

/-- Like `remoteHappy`, but the proxy-creation call resolves to a null-ish
value. -/
def remoteProxyNullResult : Remote :=
  { remoteHappy with tcpProxyCreate := fun _ _ _ => Except.ok false }

/-! ## Scope lemmas -/

theorem containsKey_iff_exists (s : Scope) (k : String) :
    containsKey s k = true ↔ ∃ p ∈ s, p.1 = k := by
  simp [containsKey, List.any_eq_true]

theorem containsKey_eq_false_iff (s : Scope) (k : String) :
    containsKey s k = false ↔ ∀ p ∈ s, p.1 ≠ k := by
  simp [containsKey, List.any_eq_false]

theorem find?_eq_none_of_not_containsKey {s : Scope} {k : String}
    (h : containsKey s k = false) : s.find? (fun p => p.1 == k) = none := by
  rw [List.find?_eq_none]
  intro p hp
  have := (containsKey_eq_false_iff s k).1 h p hp
  simpa using this

theorem containsKey_cons (p : String × String) (rest : Scope) (k : String) :
    containsKey (p :: rest) k = (p.1 == k || containsKey rest k) := rfl

theorem find?_map_replace {k kr : String} (v : String) (s : Scope)
    (h : kr ≠ k) :
    (s.map (fun p => if p.1 == kr then (kr, v) else p)).find?
        (fun p => p.1 == k)
      = s.find? (fun p => p.1 == k) := by
  induction s with
  | nil => rfl
  | cons p rest ih =>
    by_cases hp : p.1 = kr
    · have h1 : (if (p.1 == kr) = true then (kr, v) else p) = (kr, v) := by
        simp [hp]
      simp only [List.map_cons, h1]
      rw [List.find?_cons_of_neg _ (by simp [h]),
        List.find?_cons_of_neg _ (by simp [hp, h]), ih]
    · have h1 : (if (p.1 == kr) = true then (kr, v) else p) = p := by
        simp [hp]
      simp only [List.map_cons, h1]
      by_cases hk : p.1 = k
      · rw [List.find?_cons_of_pos _ (by simpa using hk),
          List.find?_cons_of_pos _ (by simpa using hk)]
      · rw [List.find?_cons_of_neg _ (by simpa using hk),
          List.find?_cons_of_neg _ (by simpa using hk), ih]

theorem find?_map_replace_self {s : Scope} {k : String} (v : String)
    (h : containsKey s k = true) :
    (s.map (fun p => if p.1 == k then (k, v) else p)).find?
        (fun p => p.1 == k)
      = some (k, v) := by
  induction s with
  | nil => simp [containsKey] at h
  | cons p rest ih =>
    by_cases hp : p.1 = k
    · have h1 : (if (p.1 == k) = true then (k, v) else p) = (k, v) := by
        simp [hp]
      simp only [List.map_cons, h1]
      rw [List.find?_cons_of_pos _ (by simp)]
    · have h1 : (if (p.1 == k) = true then (k, v) else p) = p := by
        simp [hp]
      simp only [List.map_cons, h1]
      rw [List.find?_cons_of_neg _ (by simpa using hp)]
      apply ih
      have h2 := h
      rw [containsKey_cons, Bool.or_eq_true] at h2
      rcases h2 with h2 | h2
      · exact absurd (by simpa using h2) hp
      · exact h2

theorem lookupVar_upsert_ne (s : Scope) {k kr : String} (v : String)
    (h : kr ≠ k) : lookupVar (upsert s kr v) k = lookupVar s k := by
  unfold upsert lookupVar
  by_cases hc : containsKey s kr = true
  · rw [if_pos hc, find?_map_replace v s h]
  · rw [if_neg hc, List.find?_append,
      find?_eq_none_of_not_containsKey (s := [(kr, v)])
        (by simp [containsKey, h]),
      Option.or_none]

theorem lookupVar_upsert_self (s : Scope) (k v : String) :
    lookupVar (upsert s k v) k = some v := by
  unfold upsert lookupVar
  by_cases hc : containsKey s k = true
  · rw [if_pos hc, find?_map_replace_self v hc]
    rfl
  · rw [if_neg hc, List.find?_append,
      find?_eq_none_of_not_containsKey (by simpa using hc)]
    simp

theorem lookupVar_bulkUpsert_of_not_key {entries : Scope} {k : String}
    (s : Scope) (h : ∀ p ∈ entries, p.1 ≠ k) :
    lookupVar (bulkUpsert s entries) k = lookupVar s k := by
  induction entries generalizing s with
  | nil => rfl
  | cons e rest ih =>
    have : bulkUpsert s (e :: rest) = bulkUpsert (upsert s e.1 e.2) rest := rfl
    rw [this, ih _ (fun p hp => h p (List.mem_cons_of_mem e hp)),
      lookupVar_upsert_ne _ _ (h e (List.mem_cons_self e rest))]

theorem containsKey_eq_isSome_lookupVar (s : Scope) (k : String) :
    containsKey s k = (lookupVar s k).isSome := by
  rcases h : lookupVar s k with _ | v
  · simp only [Option.isSome_none]
    rw [containsKey_eq_false_iff]
    intro p hp
    unfold lookupVar at h
    rcases hf : s.find? (fun p => p.1 == k) with _ | q
    · rw [List.find?_eq_none] at hf
      simpa using hf p hp
    · rw [hf] at h
      simp at h
  · simp only [Option.isSome_some]
    unfold lookupVar at h
    rcases hf : s.find? (fun p => p.1 == k) with _ | q
    · rw [hf] at h
      simp at h
    · rw [containsKey_iff_exists]
      exact ⟨q, List.mem_of_find?_eq_some hf, by simpa using List.find?_some hf⟩

theorem containsKey_upsert_of {s : Scope} {k : String} (kr v : String)
    (h : containsKey s k = true) : containsKey (upsert s kr v) k = true := by
  by_cases hk : kr = k
  · subst hk
    rw [containsKey_eq_isSome_lookupVar, lookupVar_upsert_self]
    rfl
  · rw [containsKey_eq_isSome_lookupVar, lookupVar_upsert_ne s v hk,
      ← containsKey_eq_isSome_lookupVar]
    exact h

theorem containsKey_upsert_self (s : Scope) (k v : String) :
    containsKey (upsert s k v) k = true := by
  rw [containsKey_eq_isSome_lookupVar, lookupVar_upsert_self]
  rfl

theorem containsKey_bulkUpsert_of {entries : Scope} {k : String} (s : Scope)
    (h : containsKey s k = true) :
    containsKey (bulkUpsert s entries) k = true := by
  induction entries generalizing s with
  | nil => exact h
  | cons e rest ih => exact ih _ (containsKey_upsert_of e.1 e.2 h)

theorem containsKey_bulkUpsert_of_mem {entries : Scope} {k : String}
    (s : Scope) (h : ∃ p ∈ entries, p.1 = k) :
    containsKey (bulkUpsert s entries) k = true := by
  induction entries generalizing s with
  | nil => simp at h
  | cons e rest ih =>
    rcases h with ⟨p, hp, hpk⟩
    have hstep : bulkUpsert s (e :: rest) = bulkUpsert (upsert s e.1 e.2) rest :=
      rfl
    rcases List.mem_cons.1 hp with rfl | hrest
    · subst hpk
      rw [hstep]
      exact containsKey_bulkUpsert_of _ (containsKey_upsert_self s p.1 p.2)
    · rw [hstep]
      exact ih _ ⟨p, hrest, hpk⟩

theorem lookupVar_bulkUpsert_mem {entries : Scope} {k v : String} (s : Scope)
    (hnd : (entries.map Prod.fst).Nodup) (hmem : (k, v) ∈ entries) :
    lookupVar (bulkUpsert s entries) k = some v := by
  induction entries generalizing s with
  | nil => simp at hmem
  | cons e rest ih =>
    rw [List.map_cons, List.nodup_cons] at hnd
    have hstep : bulkUpsert s (e :: rest) = bulkUpsert (upsert s e.1 e.2) rest :=
      rfl
    rcases List.mem_cons.1 hmem with he | hrest
    · have hnotin : ∀ p ∈ rest, p.1 ≠ k := by
        intro p hp hpk
        apply hnd.1
        have hm : p.1 ∈ List.map Prod.fst rest := List.mem_map_of_mem Prod.fst hp
        rw [hpk] at hm
        have he1 : e.1 = k := by rw [← he]
        rw [he1]
        exact hm
      rw [hstep, lookupVar_bulkUpsert_of_not_key _ hnotin, ← he]
      exact lookupVar_upsert_self s k v
    · rw [hstep]
      exact ih _ hnd.2 hrest

theorem map_fst_filter_key (source : Scope) (q : String → Bool) :
    (source.filter (fun p => q p.1)).map Prod.fst
      = (source.map Prod.fst).filter q := by
  induction source with
  | nil => rfl
  | cons p rest ih =>
    by_cases hq : q p.1 = true
    · simp [List.filter_cons, hq, ih]
    · simp [List.filter_cons, hq, ih]

theorem filter_keys_card (source target : Scope)
    (hs : (source.map Prod.fst).Nodup) :
    ((source.map Prod.fst).toFinset.filter
        (fun k => containsKey target k = false)).card
      = ((source.map Prod.fst).filter (fun k => !containsKey target k)).length := by
  have hnd : ((source.map Prod.fst).filter (fun k => !containsKey target k)).Nodup :=
    hs.filter _
  rw [← List.toFinset_card_of_nodup hnd, List.toFinset_filter]
  simp only [Bool.not_eq_true']

theorem copyVariables_false_eq (source target : Scope)
    (hemp : source.isEmpty = false) :
    copyVariables source target false =
      (if (source.filter (fun p => !containsKey target p.1)).isEmpty = true then
        { copied := 0, target := target
          calls := [VarCall.readSource, VarCall.readTarget] }
      else
        { copied := (source.filter (fun p => !containsKey target p.1)).length
          target := bulkUpsert target
            (source.filter (fun p => !containsKey target p.1))
          calls := [VarCall.readSource, VarCall.readTarget,
            VarCall.bulkSet (source.filter (fun p => !containsKey target p.1))] }) := by
  simp [copyVariables, hemp]

theorem copyVariables_true_eq (source target : Scope)
    (hemp : source.isEmpty = false) :
    copyVariables source target true =
      { copied := source.length
        target := bulkUpsert target source
        calls := [VarCall.readSource, VarCall.readTarget,
          VarCall.bulkSet source] } := by
  simp [copyVariables, hemp]

/-! ## Claim theorems about `copyVariables` -/

/-- Claim C1: under `overwrite = false`, the entries written to the target
are exactly the source entries whose key is absent from the target (key
presence only), the reported count is the number of such keys, and every
pre-existing target key keeps its pre-copy value. -/
theorem copyVariables_no_overwrite_correct (source target : Scope)
    (hs : (source.map Prod.fst).Nodup) :
    writtenEntries (copyVariables source target false).calls
        = source.filter (fun p => !containsKey target p.1)
    ∧ (copyVariables source target false).copied
        = ((source.map Prod.fst).filter (fun k => !containsKey target k)).length
    ∧ (copyVariables source target false).copied
        = ((source.map Prod.fst).toFinset.filter
            (fun k => containsKey target k = false)).card
    ∧ ∀ k, containsKey target k = true →
        lookupVar (copyVariables source target false).target k
          = lookupVar target k := by
  have hcard := filter_keys_card source target hs
  have hkeys := map_fst_filter_key source (fun k => !containsKey target k)
  by_cases hemp : source.isEmpty = true
  · obtain rfl := List.isEmpty_iff.1 hemp
    exact ⟨rfl, rfl, by rw [hcard]; rfl, fun k _ => rfl⟩
  · have hemp' : source.isEmpty = false := Bool.eq_false_iff.mpr hemp
    rw [copyVariables_false_eq source target hemp']
    by_cases hfe :
        (source.filter (fun p => !containsKey target p.1)).isEmpty = true
    · rw [if_pos hfe]
      have hfnil := List.isEmpty_iff.1 hfe
      refine ⟨by simpa [writtenEntries] using hfnil.symm, ?_, ?_, fun k _ => rfl⟩
      · show 0 = _
        rw [← hkeys, hfnil]
        rfl
      · show 0 = _
        rw [hcard, ← hkeys, hfnil]
        rfl
    · rw [if_neg hfe]
      refine ⟨by simp [writtenEntries], ?_, ?_, ?_⟩
      · show (source.filter (fun p => !containsKey target p.1)).length = _
        rw [← hkeys, List.length_map]
      · show (source.filter (fun p => !containsKey target p.1)).length = _
        rw [hcard, ← hkeys, List.length_map]
      · intro k htk
        show lookupVar (bulkUpsert target _) k = _
        apply lookupVar_bulkUpsert_of_not_key
        intro p hp hpk
        have hpf := (List.mem_filter.1 hp).2
        rw [hpk] at hpf
        rw [htk] at hpf
        simp at hpf

/-- Witness for C1, at the spec's concrete scenario: source
`[("A","1"),("B","2")]`, target `[("B","9")]` gives `copied = 1` and the
target becomes `[("B","9"),("A","1")]`. -/
theorem copyVariables_no_overwrite_correct_witness :
    (List.map Prod.fst exSource).Nodup
    ∧ writtenEntries (copyVariables exSource exTarget false).calls
        = exSource.filter (fun p => !containsKey exTarget p.1)
    ∧ (copyVariables exSource exTarget false).copied = 1
    ∧ (copyVariables exSource exTarget false).target = [("B", "9"), ("A", "1")]
    ∧ lookupVar (copyVariables exSource exTarget false).target "B"
        = lookupVar exTarget "B" :=
  ⟨by decide,
    (copyVariables_no_overwrite_correct exSource exTarget (by decide)).1,
    by decide, by decide,
    (copyVariables_no_overwrite_correct exSource exTarget (by decide)).2.2.2
      "B" (by decide)⟩

/-- Claim C2: under `overwrite = true` with a non-empty source, the whole
source set is written, the count is the number of source keys, and every
source key afterwards maps to the source's value in the target. -/
theorem copyVariables_overwrite_correct (source target : Scope)
    (hs : (source.map Prod.fst).Nodup) (hne : source ≠ []) :
    writtenEntries (copyVariables source target true).calls = source
    ∧ (copyVariables source target true).copied = source.length
    ∧ (copyVariables source target true).copied
        = (source.map Prod.fst).toFinset.card
    ∧ ∀ k v, lookupVar source k = some v →
        lookupVar (copyVariables source target true).target k = some v := by
  have hemp : source.isEmpty = false := by
    cases source with
    | nil => exact absurd rfl hne
    | cons p rest => rfl
  rw [copyVariables_true_eq source target hemp]
  refine ⟨by simp [writtenEntries], rfl, ?_, ?_⟩
  · show source.length = _
    rw [List.toFinset_card_of_nodup hs, List.length_map]
  · intro k v hkv
    unfold lookupVar at hkv
    rcases hfind : source.find? (fun p => p.1 == k) with _ | p
    · rw [hfind] at hkv
      simp at hkv
    · rw [hfind] at hkv
      have hp2 : p.2 = v := by simpa using hkv
      have hp1 : p.1 = k := by simpa using List.find?_some hfind
      have hmem : (k, v) ∈ source := by
        have hp : p = (k, v) := by
          rcases p with ⟨a, b⟩
          simp only at hp1 hp2
          rw [hp1, hp2]
        rw [← hp]
        exact List.mem_of_find?_eq_some hfind
      exact lookupVar_bulkUpsert_mem target hs hmem

/-- Witness for C2, at the spec's concrete scenario: source
`[("A","1"),("B","2")]`, target `[("B","9")]` gives `copied = 2` and a
target whose map content is `A ↦ 1, B ↦ 2`. -/
theorem copyVariables_overwrite_correct_witness :
    (List.map Prod.fst exSource).Nodup
    ∧ exSource ≠ []
    ∧ (copyVariables exSource exTarget true).copied = 2
    ∧ lookupVar (copyVariables exSource exTarget true).target "A" = some "1"
    ∧ lookupVar (copyVariables exSource exTarget true).target "B" = some "2"
    ∧ (copyVariables exSource exTarget true).target = [("B", "2"), ("A", "1")] :=
  ⟨by decide, by decide, by decide,
    (copyVariables_overwrite_correct exSource exTarget (by decide)
        (by decide)).2.2.2 "A" "1" (by decide),
    (copyVariables_overwrite_correct exSource exTarget (by decide)
        (by decide)).2.2.2 "B" "2" (by decide),
    by decide⟩

/-- Claim C5: a copy from an empty source scope returns `copied = 0`,
issues no call after the source read (in particular no `bulkSet`), and
leaves the target scope unchanged, under either overwrite policy. -/
theorem copyVariables_empty_source (source target : Scope) (overwrite : Bool)
    (h : source = []) :
    copyVariables source target overwrite =
      { copied := 0, target := target, calls := [VarCall.readSource] } := by
  subst h
  rfl

/-- Witness for C5 at a concrete non-empty target and `overwrite = true`. -/
theorem copyVariables_empty_source_witness :
    ([] : Scope) = []
    ∧ copyVariables [] exTarget true
        = { copied := 0, target := exTarget, calls := [VarCall.readSource] } :=
  ⟨rfl, copyVariables_empty_source [] exTarget true rfl⟩

/-- Claim C6: a key present only in the target (absent from the source)
survives any copy with its value unchanged, under either policy. -/
theorem copyVariables_preserves_target_only (source target : Scope)
    (overwrite : Bool) (k : String) (hsk : containsKey source k = false)
    (htk : containsKey target k = true) :
    lookupVar (copyVariables source target overwrite).target k
        = lookupVar target k
    ∧ containsKey (copyVariables source target overwrite).target k = true := by
  have hns : ∀ p ∈ source, p.1 ≠ k := (containsKey_eq_false_iff source k).1 hsk
  by_cases hemp : source.isEmpty = true
  · obtain rfl := List.isEmpty_iff.1 hemp
    exact ⟨rfl, htk⟩
  · have hemp' : source.isEmpty = false := Bool.eq_false_iff.mpr hemp
    cases overwrite with
    | true =>
      rw [copyVariables_true_eq source target hemp']
      exact ⟨lookupVar_bulkUpsert_of_not_key target hns,
        containsKey_bulkUpsert_of target htk⟩
    | false =>
      rw [copyVariables_false_eq source target hemp']
      by_cases hfe :
          (source.filter (fun p => !containsKey target p.1)).isEmpty = true
      · rw [if_pos hfe]
        exact ⟨rfl, htk⟩
      · rw [if_neg hfe]
        have hnf : ∀ p ∈ source.filter (fun p => !containsKey target p.1),
            p.1 ≠ k := fun p hp => hns p (List.mem_filter.1 hp).1
        exact ⟨lookupVar_bulkUpsert_of_not_key target hnf,
          containsKey_bulkUpsert_of target htk⟩

/-- Witness for C6: key "C" exists only in the target and is untouched. -/
theorem copyVariables_preserves_target_only_witness :
    containsKey [("A", "1")] "C" = false
    ∧ containsKey [("C", "7")] "C" = true
    ∧ lookupVar (copyVariables [("A", "1")] [("C", "7")] false).target "C"
        = lookupVar [("C", "7")] "C"
    ∧ containsKey (copyVariables [("A", "1")] [("C", "7")] false).target "C"
        = true :=
  ⟨by decide, by decide,
    (copyVariables_preserves_target_only [("A", "1")] [("C", "7")] false "C"
        (by decide) (by decide)).1,
    (copyVariables_preserves_target_only [("A", "1")] [("C", "7")] false "C"
        (by decide) (by decide)).2⟩

/-- Claim C10: copying with `overwrite = false` is idempotent — a second
identical copy reports `copied = 0`, writes nothing (no `bulkSet` entries),
and leaves the target exactly as the first copy left it. -/
theorem copyVariables_no_overwrite_idempotent (source target : Scope) :
    (copyVariables source (copyVariables source target false).target
        false).copied = 0
    ∧ (copyVariables source (copyVariables source target false).target
        false).target = (copyVariables source target false).target
    ∧ writtenEntries
        (copyVariables source (copyVariables source target false).target
          false).calls = [] := by
  by_cases hemp : source.isEmpty = true
  · obtain rfl := List.isEmpty_iff.1 hemp
    exact ⟨rfl, rfl, rfl⟩
  · have hemp' : source.isEmpty = false := Bool.eq_false_iff.mpr hemp
    have hA : ∀ p ∈ source,
        containsKey (copyVariables source target false).target p.1 = true := by
      intro p hp
      rw [copyVariables_false_eq source target hemp']
      by_cases hfe :
          (source.filter (fun q => !containsKey target q.1)).isEmpty = true
      · rw [if_pos hfe]
        have := List.filter_eq_nil_iff.1 (List.isEmpty_iff.1 hfe) p hp
        show containsKey target p.1 = true
        simpa using this
      · rw [if_neg hfe]
        show containsKey (bulkUpsert target _) p.1 = true
        by_cases hct : containsKey target p.1 = true
        · exact containsKey_bulkUpsert_of target hct
        · apply containsKey_bulkUpsert_of_mem
          refine ⟨p, List.mem_filter.2 ⟨hp, ?_⟩, rfl⟩
          simp [Bool.eq_false_iff.mpr hct]
    have hf2 : source.filter
        (fun p => !containsKey (copyVariables source target false).target p.1)
        = [] := by
      rw [List.filter_eq_nil_iff]
      intro p hp
      simp [hA p hp]
    rw [copyVariables_false_eq source
      (copyVariables source target false).target hemp', hf2]
    exact ⟨rfl, rfl, rfl⟩

/-- Witness for C10 at the spec's concrete scenario. -/
theorem copyVariables_no_overwrite_idempotent_witness :
    (copyVariables exSource (copyVariables exSource exTarget false).target
        false).copied = 0
    ∧ (copyVariables exSource (copyVariables exSource exTarget false).target
        false).target = (copyVariables exSource exTarget false).target
    ∧ writtenEntries
        (copyVariables exSource (copyVariables exSource exTarget false).target
          false).calls = [] :=
  copyVariables_no_overwrite_idempotent exSource exTarget

/-! ## String containment lemmas -/

theorem charsHavePrefix_append (pat rest : List Char) :
    charsHavePrefix pat (pat ++ rest) = true := by
  induction pat with
  | nil => rfl
  | cons a as ih => simp [charsHavePrefix, ih]

theorem listContainsChars_self_append (pat post : List Char) :
    listContainsChars pat (pat ++ post) = true := by
  cases pat with
  | nil =>
    cases post with
    | nil => rfl
    | cons c rest => simp [listContainsChars, charsHavePrefix]
  | cons a as =>
    have h := charsHavePrefix_append (a :: as) post
    rw [List.cons_append] at h
    rw [List.cons_append]
    simp [listContainsChars, h]

theorem listContainsChars_cons (pat : List Char) (c : Char) (l : List Char)
    (h : listContainsChars pat l = true) :
    listContainsChars pat (c :: l) = true := by
  simp [listContainsChars, h]

theorem listContainsChars_infix (pre pat post : List Char) :
    listContainsChars pat (pre ++ (pat ++ post)) = true := by
  induction pre with
  | nil => simpa using listContainsChars_self_append pat post
  | cons c pre ih =>
    rw [List.cons_append]
    exact listContainsChars_cons _ c _ ih

theorem renderProxyFailed_names_service (sid eid : String) :
    strContainsSub
        (renderProvisionError (ProvisionError.proxyCreateFailed sid eid)) sid
      = true := by
  show strContainsSub
    ("Error creating proxy: Failed to create proxy for " ++ sid
      ++ " in environment " ++ eid) sid = true
  unfold strContainsSub
  simp only [String.data_append, List.append_assoc]
  exact listContainsChars_infix _ sid.data _

/-! ## Provisioning reduction lemmas -/

theorem provisionAfterVariables_calls (remote : Remote)
    (projectId region environmentId : String) (service : CreatedService)
    (serviceConfig : ServiceSlotConfig) (calls : List RemoteCall) :
    ∃ suffix,
      (provisionAfterVariables remote projectId region environmentId service
        serviceConfig calls).2 = calls ++ suffix := by
  unfold provisionAfterVariables
  repeat' split
  all_goals exact ⟨_, rfl⟩

theorem createDatabaseFromTemplate_eq (remote : Remote)
    (templates : List DatabaseTemplate)
    (projectId id region environmentId : String) (name : Option String)
    (template : DatabaseTemplate) (key : String) (slot : ServiceSlotConfig)
    (rest : List (String × ServiceSlotConfig)) (image : String)
    (hfind : databaseTemplateFind templates id = some template)
    (hsvc : template.services = (key, slot) :: rest)
    (himg : slot.sourceImage = some image) (hne : image ≠ "") :
    createDatabaseFromTemplate remote templates projectId id region
        environmentId name =
      (match remote.createService projectId
          (jsOrStr name (jsOrStr slot.name template.name)) image with
      | Except.error e =>
          (Except.error (ProvisionError.errorCreatingDatabase e),
            [RemoteCall.createService projectId
              (jsOrStr name (jsOrStr slot.name template.name)) image])
      | Except.ok service =>
        match slot.slotVariables with
        | some vars =>
          match remote.upsertVariables
              (mkVariableInputs projectId environmentId service.id vars) with
          | Except.error e =>
              (Except.error (ProvisionError.errorCreatingDatabase e),
                [RemoteCall.createService projectId
                    (jsOrStr name (jsOrStr slot.name template.name)) image,
                  RemoteCall.upsertVariables
                    (mkVariableInputs projectId environmentId service.id vars)])
          | Except.ok _ =>
              provisionAfterVariables remote projectId region environmentId
                service slot
                [RemoteCall.createService projectId
                    (jsOrStr name (jsOrStr slot.name template.name)) image,
                  RemoteCall.upsertVariables
                    (mkVariableInputs projectId environmentId service.id vars)]
        | none =>
            provisionAfterVariables remote projectId region environmentId
              service slot
              [RemoteCall.createService projectId
                (jsOrStr name (jsOrStr slot.name template.name)) image]) := by
  unfold createDatabaseFromTemplate
  rw [hfind]
  simp only [hsvc, himg]
  rw [if_neg (by simpa using hne)]

/-! ## Claim theorems about provisioning -/

/-- Claim C3: when the resolved template has no service slot, or its first
slot's image source is missing or empty, provisioning fails with an
"Invalid database template" error and issues no remote call at all (the
trace is empty), for every remote behaviour. -/
theorem createDatabase_invalid_template_no_mutation (remote : Remote)
    (templates : List DatabaseTemplate)
    (projectId id region environmentId : String) (name : Option String)
    (template : DatabaseTemplate)
    (hfind : databaseTemplateFind templates id = some template)
    (h : template.services = []
      ∨ ∃ key slot rest, template.services = (key, slot) :: rest
          ∧ jsStrTruthy slot.sourceImage = false) :
    ∃ e, createDatabaseFromTemplate remote templates projectId id region
          environmentId name = (Except.error e, [])
      ∧ (e = ProvisionError.noServicesFound ∨ e = ProvisionError.noImageSource)
      ∧ strHasPrefix (renderProvisionError e) "Invalid database template"
          = true := by
  rcases h with hnil | ⟨key, slot, rest, hsvc, himg⟩
  · refine ⟨ProvisionError.noServicesFound, ?_, Or.inl rfl, by decide⟩
    unfold createDatabaseFromTemplate
    rw [hfind]
    simp only [hnil]
  · rcases hsi : slot.sourceImage with _ | img
    · refine ⟨ProvisionError.noImageSource, ?_, Or.inr rfl, by decide⟩
      unfold createDatabaseFromTemplate
      rw [hfind]
      simp only [hsvc, hsi]
    · have himg' : img = "" := by
        rw [hsi] at himg
        simpa [jsStrTruthy] using himg
      subst himg'
      refine ⟨ProvisionError.noImageSource, ?_, Or.inr rfl, by decide⟩
      unfold createDatabaseFromTemplate
      rw [hfind]
      simp [hsvc, hsi]

/-- Witness for C3: a storage-category template with an empty service
record is rejected with no remote calls. -/
theorem createDatabase_invalid_template_no_mutation_witness :
    databaseTemplateFind [emptyServicesTemplate] "empty"
        = some emptyServicesTemplate
    ∧ emptyServicesTemplate.services = []
    ∧ ∃ e, createDatabaseFromTemplate remoteHappy [emptyServicesTemplate]
            "proj" "empty" "r" "env" none = (Except.error e, [])
        ∧ (e = ProvisionError.noServicesFound
            ∨ e = ProvisionError.noImageSource)
        ∧ strHasPrefix (renderProvisionError e) "Invalid database template"
            = true :=
  ⟨by decide, rfl,
    createDatabase_invalid_template_no_mutation remoteHappy
      [emptyServicesTemplate] "proj" "empty" "r" "env" none
      emptyServicesTemplate (by decide) (Or.inl rfl)⟩

/-- Counterexample to claim C7 as stated: the caller supplies the name
override `""`; the created compute service is named "postgres" (the slot's
declared name), not the supplied override. -/
theorem createDatabase_name_override_counterexample :
    (createDatabaseFromTemplate remoteHappy [pgTemplate] "proj" "pg" "r"
        "env" (some "")).2.head?
      = some (RemoteCall.createService "proj" "postgres" "postgres:16")
    ∧ "postgres" ≠ "" :=
  ⟨by decide, by decide⟩

/-- Claim C7 (amended): the compute service is created — first call of the
trace, under every remote behaviour — with the caller's name override when
it is supplied and non-empty; otherwise the slot's declared name when it is
present and non-empty; otherwise the template's display name (JavaScript
`name || serviceConfig.name || template.name`). -/
theorem createDatabase_service_name (remote : Remote)
    (templates : List DatabaseTemplate)
    (projectId id region environmentId : String) (name : Option String)
    (template : DatabaseTemplate) (key : String) (slot : ServiceSlotConfig)
    (rest : List (String × ServiceSlotConfig)) (image : String)
    (hfind : databaseTemplateFind templates id = some template)
    (hsvc : template.services = (key, slot) :: rest)
    (himg : slot.sourceImage = some image) (hne : image ≠ "") :
    (createDatabaseFromTemplate remote templates projectId id region
        environmentId name).2.head?
      = some (RemoteCall.createService projectId
          (jsOrStr name (jsOrStr slot.name template.name)) image)
    ∧ (∀ s, name = some s → s ≠ "" →
        jsOrStr name (jsOrStr slot.name template.name) = s)
    ∧ (∀ t, (name = none ∨ name = some "") → slot.name = some t → t ≠ "" →
        jsOrStr name (jsOrStr slot.name template.name) = t)
    ∧ ((name = none ∨ name = some "") →
        (slot.name = none ∨ slot.name = some "") →
        jsOrStr name (jsOrStr slot.name template.name) = template.name) := by
  refine ⟨?_, ?_, ?_, ?_⟩
  · rw [createDatabaseFromTemplate_eq remote templates projectId id region
      environmentId name template key slot rest image hfind hsvc himg hne]
    rcases hc : remote.createService projectId
        (jsOrStr name (jsOrStr slot.name template.name)) image with e | service
    · rfl
    · rcases hv : slot.slotVariables with _ | vars
      · obtain ⟨suffix, hs⟩ := provisionAfterVariables_calls remote projectId
          region environmentId service slot
          [RemoteCall.createService projectId
            (jsOrStr name (jsOrStr slot.name template.name)) image]
        simp only [hs, List.cons_append]
        rfl
      · rcases hu : remote.upsertVariables
            (mkVariableInputs projectId environmentId service.id vars)
            with e | u
        · simp only [hu]
          rfl
        · obtain ⟨suffix, hs⟩ := provisionAfterVariables_calls remote projectId
            region environmentId service slot
            [RemoteCall.createService projectId
                (jsOrStr name (jsOrStr slot.name template.name)) image,
              RemoteCall.upsertVariables
                (mkVariableInputs projectId environmentId service.id vars)]
          simp only [hu, hs, List.cons_append]
          rfl
  · intro s hn hs
    subst hn
    simp [jsOrStr, hs]
  · intro t hn ht hte
    rcases hn with rfl | rfl
    · simp [jsOrStr, ht, hte]
    · simp [jsOrStr, ht, hte]
  · intro hn hsl
    rcases hn with rfl | rfl <;> rcases hsl with h2 | h2 <;> simp [jsOrStr, h2]

/-- Witness for C7 (amended): the override `""` falls through to the slot
name "postgres". -/
theorem createDatabase_service_name_witness :
    (createDatabaseFromTemplate remoteHappy [pgTemplate] "proj" "pg" "r"
        "env" (some "")).2.head?
      = some (RemoteCall.createService "proj"
          (jsOrStr (some "") (jsOrStr pgSlot.name pgTemplate.name))
          "postgres:16")
    ∧ jsOrStr (some "") (jsOrStr pgSlot.name pgTemplate.name) = "postgres" :=
  ⟨(createDatabase_service_name remoteHappy [pgTemplate] "proj" "pg" "r"
      "env" (some "") pgTemplate "s0" pgSlot [] "postgres:16" (by decide) rfl
      rfl (by decide)).1,
    by decide⟩

theorem provisionAfterVariables_proxy_fails (remote : Remote)
    (projectId region environmentId : String) (service : CreatedService)
    (serviceConfig : ServiceSlotConfig) (calls : List RemoteCall)
    (hinst : remote.getServiceInstance service.id environmentId
      = Except.ok true)
    (hupd : remote.updateServiceInstance service.id environmentId region
      = Except.ok true)
    (hproxy : remote.tcpProxyCreate environmentId service.id
      (templatePort serviceConfig) = Except.ok false) :
    provisionAfterVariables remote projectId region environmentId service
        serviceConfig calls =
      (Except.error (ProvisionError.proxyCreateFailed service.id environmentId),
        calls ++ [RemoteCall.getServiceInstance service.id environmentId,
          RemoteCall.updateServiceInstance service.id environmentId region,
          RemoteCall.tcpProxyCreate environmentId service.id
            (templatePort serviceConfig)]) := by
  unfold provisionAfterVariables
  rw [hinst, hupd, hproxy]

/-- Counterexample to claim C4 as stated: steps 2 and 3 succeed, and step 5
fails because the proxy-creation call throws; the reported error is the
generic "Error creating database" wrapper, which does not name the created
service's identifier "svc-123" (no deletion call is issued either way). -/
theorem createDatabase_proxy_throw_counterexample :
    (createDatabaseFromTemplate remoteProxyThrows [pgTemplate] "proj" "pg"
        "us-west1" "env1" none).1
      = Except.error (ProvisionError.errorCreatingDatabase "network failure")
    ∧ RemoteCall.createService "proj" "postgres" "postgres:16"
        ∈ (createDatabaseFromTemplate remoteProxyThrows [pgTemplate] "proj"
            "pg" "us-west1" "env1" none).2
    ∧ RemoteCall.upsertVariables
          (mkVariableInputs "proj" "env1" "svc-123"
            [("PGDATA", "/var/lib/postgresql/data")])
        ∈ (createDatabaseFromTemplate remoteProxyThrows [pgTemplate] "proj"
            "pg" "us-west1" "env1" none).2
    ∧ strContainsSub
        (renderProvisionError
          (ProvisionError.errorCreatingDatabase "network failure"))
        "svc-123" = false :=
  ⟨by decide, by decide, by decide, by decide⟩

/-- Claim C4 (amended): when steps 2 and 3 succeed and the proxy-creation
call of step 5 resolves with no proxy, the orchestrator raises
`proxyCreateFailed` naming the created service's identifier, immediately:
the trace contains the compute-service creation and the variable upsert,
contains no deletion or compensating call, and contains no volume-creation
call.  (When step 5 instead throws, the failure is re-surfaced as the
generic wrapper carrying the cause, which does not name the identifier —
see the counterexample.) -/
theorem createDatabase_proxy_failure_no_rollback (remote : Remote)
    (templates : List DatabaseTemplate)
    (projectId id region environmentId : String) (name : Option String)
    (template : DatabaseTemplate) (key : String) (slot : ServiceSlotConfig)
    (rest : List (String × ServiceSlotConfig)) (image : String)
    (service : CreatedService)
    (hfind : databaseTemplateFind templates id = some template)
    (hsvc : template.services = (key, slot) :: rest)
    (himg : slot.sourceImage = some image) (hne : image ≠ "")
    (hcreate : remote.createService projectId
      (jsOrStr name (jsOrStr slot.name template.name)) image
      = Except.ok service)
    (hvars : ∀ vs, slot.slotVariables = some vs →
      remote.upsertVariables
          (mkVariableInputs projectId environmentId service.id vs)
        = Except.ok ())
    (hinst : remote.getServiceInstance service.id environmentId
      = Except.ok true)
    (hupd : remote.updateServiceInstance service.id environmentId region
      = Except.ok true)
    (hproxy : remote.tcpProxyCreate environmentId service.id
      (templatePort slot) = Except.ok false) :
    (createDatabaseFromTemplate remote templates projectId id region
        environmentId name).1
      = Except.error (ProvisionError.proxyCreateFailed service.id
          environmentId)
    ∧ RemoteCall.createService projectId
          (jsOrStr name (jsOrStr slot.name template.name)) image
        ∈ (createDatabaseFromTemplate remote templates projectId id region
            environmentId name).2
    ∧ (∀ vs, slot.slotVariables = some vs →
        RemoteCall.upsertVariables
            (mkVariableInputs projectId environmentId service.id vs)
          ∈ (createDatabaseFromTemplate remote templates projectId id region
              environmentId name).2)
    ∧ (∀ c ∈ (createDatabaseFromTemplate remote templates projectId id region
          environmentId name).2, c.isDeletion = false)
    ∧ (∀ p e s m, RemoteCall.createVolume p e s m
        ∉ (createDatabaseFromTemplate remote templates projectId id region
            environmentId name).2)
    ∧ strContainsSub
        (renderProvisionError
          (ProvisionError.proxyCreateFailed service.id environmentId))
        service.id = true := by
  have hred := createDatabaseFromTemplate_eq remote templates projectId id
    region environmentId name template key slot rest image hfind hsvc himg hne
  rcases hv : slot.slotVariables with _ | vars
  · have hfinal : createDatabaseFromTemplate remote templates projectId id
        region environmentId name =
        (Except.error (ProvisionError.proxyCreateFailed service.id
            environmentId),
          [RemoteCall.createService projectId
              (jsOrStr name (jsOrStr slot.name template.name)) image,
            RemoteCall.getServiceInstance service.id environmentId,
            RemoteCall.updateServiceInstance service.id environmentId region,
            RemoteCall.tcpProxyCreate environmentId service.id
              (templatePort slot)]) := by
      rw [hred]
      simp only [hcreate, hv]
      rw [provisionAfterVariables_proxy_fails remote projectId region
        environmentId service slot _ hinst hupd hproxy]
      rfl
    rw [hfinal]
    refine ⟨rfl, by simp, ?_, ?_, ?_, renderProxyFailed_names_service _ _⟩
    · intro vs hvs
      cases hvs
    · intro c hc
      simp only [List.mem_cons, List.not_mem_nil, or_false] at hc
      rcases hc with rfl | rfl | rfl | rfl <;> rfl
    · intro p e s m hmem
      simp at hmem
  · have hfinal : createDatabaseFromTemplate remote templates projectId id
        region environmentId name =
        (Except.error (ProvisionError.proxyCreateFailed service.id
            environmentId),
          [RemoteCall.createService projectId
              (jsOrStr name (jsOrStr slot.name template.name)) image,
            RemoteCall.upsertVariables
              (mkVariableInputs projectId environmentId service.id vars),
            RemoteCall.getServiceInstance service.id environmentId,
            RemoteCall.updateServiceInstance service.id environmentId region,
            RemoteCall.tcpProxyCreate environmentId service.id
              (templatePort slot)]) := by
      rw [hred]
      simp only [hcreate, hv, hvars vars hv]
      rw [provisionAfterVariables_proxy_fails remote projectId region
        environmentId service slot _ hinst hupd hproxy]
      rfl
    rw [hfinal]
    refine ⟨rfl, by simp, ?_, ?_, ?_, renderProxyFailed_names_service _ _⟩
    · intro vs hvs
      cases hvs
      simp
    · intro c hc
      simp only [List.mem_cons, List.not_mem_nil, or_false] at hc
      rcases hc with rfl | rfl | rfl | rfl | rfl <;> rfl
    · intro p e s m hmem
      simp at hmem

/-- Witness for C4 (amended): concrete run on `remoteProxyNullResult`. -/
theorem createDatabase_proxy_failure_no_rollback_witness :
    (createDatabaseFromTemplate remoteProxyNullResult [pgTemplate] "proj"
        "pg" "us-west1" "env1" none).1
      = Except.error (ProvisionError.proxyCreateFailed "svc-123" "env1")
    ∧ RemoteCall.createService "proj" "postgres" "postgres:16"
        ∈ (createDatabaseFromTemplate remoteProxyNullResult [pgTemplate]
            "proj" "pg" "us-west1" "env1" none).2
    ∧ (∀ c ∈ (createDatabaseFromTemplate remoteProxyNullResult [pgTemplate]
          "proj" "pg" "us-west1" "env1" none).2, c.isDeletion = false)
    ∧ strContainsSub
        (renderProvisionError
          (ProvisionError.proxyCreateFailed "svc-123" "env1"))
        "svc-123" = true := by
  have h := createDatabase_proxy_failure_no_rollback remoteProxyNullResult
    [pgTemplate] "proj" "pg" "us-west1" "env1" none pgTemplate "s0" pgSlot []
    "postgres:16" { id := "svc-123" } (by decide) rfl rfl (by decide) rfl
    (fun vs hv => rfl) rfl rfl rfl
  exact ⟨h.1, h.2.1, h.2.2.2.1, h.2.2.2.2.2⟩

/-! ## Template resolution (claim C8) -/

/-- Counterexample to claim C8 as stated: the catalog contains a template
with identifier "t-compute", but the database-provisioning path's resolve
fails on it (category-filtered find), while the deploy path resolves it. -/
theorem template_resolve_category_counterexample :
    computeTemplate ∈ [computeTemplate]
    ∧ computeTemplate.id = "t-compute"
    ∧ databaseTemplateFind [computeTemplate] "t-compute" = none
    ∧ (createDatabaseFromTemplate remoteHappy [computeTemplate] "proj"
          "t-compute" "r" "env" none).1
        = Except.error ProvisionError.unsupportedDatabase
    ∧ (createDatabaseFromTemplate remoteHappy [computeTemplate] "proj"
          "t-compute" "r" "env" none).2 = []
    ∧ deployTemplateResolve [computeTemplate] "t-compute"
        = Except.ok computeTemplate :=
  ⟨by decide, rfl, by decide, by decide, by decide, by decide⟩

/-- Claim C8 (amended): the deploy path's resolve succeeds exactly when a
template with the identifier exists (regardless of category), returning
that template and failing with the "Template not found" error otherwise;
the database-provisioning path's resolve additionally requires the
template's category to match the storage/database classifier. -/
theorem template_resolve_by_id (templates : List DatabaseTemplate)
    (templateId : String) :
    ((deployTemplateResolve templates templateId).isOk = true
      ↔ ∃ t ∈ templates, t.id = templateId)
    ∧ (∀ t, deployTemplateResolve templates templateId = Except.ok t →
        t ∈ templates ∧ t.id = templateId)
    ∧ ((¬ ∃ t ∈ templates, t.id = templateId) →
        deployTemplateResolve templates templateId
          = Except.error ("Template not found: " ++ templateId))
    ∧ ((databaseTemplateFind templates templateId).isSome = true
      ↔ ∃ t ∈ templates, t.id = templateId
          ∧ categoryMatchesStorage t.category = true) := by
  refine ⟨?_, ?_, ?_, ?_⟩
  · unfold deployTemplateResolve findTemplateById
    rcases hf : templates.find? (fun t => t.id == templateId) with _ | t <;>
      rw [hf]
    · constructor
      · intro h
        exact absurd h (by simp [Except.isOk, Except.toBool])
      · rintro ⟨t, ht, hid⟩
        rw [List.find?_eq_none] at hf
        exact ((hf t ht) (by simp [hid])).elim
    · constructor
      · intro _
        exact ⟨t, List.mem_of_find?_eq_some hf,
          by simpa using List.find?_some hf⟩
      · intro _
        rfl
  · intro t h
    unfold deployTemplateResolve findTemplateById at h
    rcases hf : templates.find? (fun q => q.id == templateId) with _ | q <;>
      rw [hf] at h
    · exact Except.noConfusion h
    · have h2 : Except.ok (ε := String) q = Except.ok t := h
      injection h2 with h3
      subst h3
      exact ⟨List.mem_of_find?_eq_some hf, by simpa using List.find?_some hf⟩
  · intro hno
    unfold deployTemplateResolve findTemplateById
    rcases hf : templates.find? (fun t => t.id == templateId) with _ | t <;>
      rw [hf]
    exact absurd ⟨t, List.mem_of_find?_eq_some hf,
      by simpa using List.find?_some hf⟩ hno
  · unfold databaseTemplateFind
    rw [List.find?_isSome]
    constructor
    · rintro ⟨t, ht, hid⟩
      rw [List.mem_filter] at ht
      exact ⟨t, ht.1, by simpa using hid, ht.2⟩
    · rintro ⟨t, ht, hid, hcat⟩
      exact ⟨t, List.mem_filter.2 ⟨ht, hcat⟩, by simpa using hid⟩

/-- Witness for C8 (amended): both resolve paths succeed on the postgres
template. -/
theorem template_resolve_by_id_witness :
    (deployTemplateResolve [pgTemplate] "pg").isOk = true
    ∧ (databaseTemplateFind [pgTemplate] "pg").isSome = true :=
  ⟨(template_resolve_by_id [pgTemplate] "pg").1.mpr
      ⟨pgTemplate, by decide, rfl⟩,
    (template_resolve_by_id [pgTemplate] "pg").2.2.2.mpr
      ⟨pgTemplate, by decide, rfl, by decide⟩⟩

/-! ## Catalog grouping (claim C9) -/

theorem bucketFind_map_self
    (acc : List (String × List DatabaseTemplate)) (k : String)
    (t : DatabaseTemplate) :
    (acc.map (fun p => if p.1 == k then (p.1, p.2 ++ [t]) else p)).find?
        (fun p => p.1 == k)
      = (acc.find? (fun p => p.1 == k)).map (fun q => (q.1, q.2 ++ [t])) := by
  induction acc with
  | nil => rfl
  | cons p rest ih =>
    by_cases hp : p.1 = k
    · have h1 : (if (p.1 == k) = true then (p.1, p.2 ++ [t]) else p)
          = (p.1, p.2 ++ [t]) := by simp [hp]
      simp only [List.map_cons, h1]
      rw [List.find?_cons_of_pos _ (by simpa using hp),
        List.find?_cons_of_pos _ (by simpa using hp)]
      rfl
    · have h1 : (if (p.1 == k) = true then (p.1, p.2 ++ [t]) else p) = p := by
        simp [hp]
      simp only [List.map_cons, h1]
      rw [List.find?_cons_of_neg _ (by simpa using hp),
        List.find?_cons_of_neg _ (by simpa using hp)]
      exact ih

theorem bucketFind_map_ne
    (acc : List (String × List DatabaseTemplate)) (kr k : String)
    (t : DatabaseTemplate) (h : kr ≠ k) :
    (acc.map (fun p => if p.1 == kr then (p.1, p.2 ++ [t]) else p)).find?
        (fun p => p.1 == k)
      = acc.find? (fun p => p.1 == k) := by
  induction acc with
  | nil => rfl
  | cons p rest ih =>
    have h2 : ((if (p.1 == kr) = true then (p.1, p.2 ++ [t]) else p)).1
        = p.1 := by
      by_cases hpr : p.1 = kr <;> simp [hpr]
    by_cases hpk : p.1 = k
    · have h1 : (if (p.1 == kr) = true then (p.1, p.2 ++ [t]) else p) = p := by
        have : ¬ p.1 = kr := fun hh => h (hh.symm.trans hpk)
        simp [this]
      simp only [List.map_cons, h1]
      rw [List.find?_cons_of_pos _ (by simpa using hpk),
        List.find?_cons_of_pos _ (by simpa using hpk)]
    · by_cases hpr : p.1 = kr
      · have h1 : (if (p.1 == kr) = true then (p.1, p.2 ++ [t]) else p)
            = (p.1, p.2 ++ [t]) := by simp [hpr]
        simp only [List.map_cons, h1]
        rw [List.find?_cons_of_neg _ (by simpa using hpk),
          List.find?_cons_of_neg _ (by simpa using hpk), ih]
      · have h1 : (if (p.1 == kr) = true then (p.1, p.2 ++ [t]) else p)
            = p := by simp [hpr]
        simp only [List.map_cons, h1]
        rw [List.find?_cons_of_neg _ (by simpa using hpk),
          List.find?_cons_of_neg _ (by simpa using hpk), ih]

theorem bucketFind_eq_none {acc : List (String × List DatabaseTemplate)}
    {k : String} (h : bucketHasKey acc k = false) :
    acc.find? (fun p => p.1 == k) = none := by
  rw [List.find?_eq_none]
  intro p hp
  rw [bucketHasKey, List.any_eq_false] at h
  exact h p hp

theorem bucketGet_bucketAdd (acc : List (String × List DatabaseTemplate))
    (kr k : String) (t : DatabaseTemplate) :
    bucketGet (bucketAdd acc kr t) k
      = if kr = k then bucketGet acc k ++ [t] else bucketGet acc k := by
  by_cases hk : kr = k
  · subst hk
    rw [if_pos rfl]
    unfold bucketAdd
    by_cases hhas : bucketHasKey acc kr = true
    · rw [if_pos hhas]
      unfold bucketGet
      rw [bucketFind_map_self]
      rcases hf : acc.find? (fun p => p.1 == kr) with _ | q <;> rw [hf]
      · rw [bucketHasKey, List.any_eq_true] at hhas
        rw [List.find?_eq_none] at hf
        obtain ⟨p, hp, hpk⟩ := hhas
        exact ((hf p hp) hpk).elim
      · simp
    · rw [if_neg hhas]
      unfold bucketGet
      rw [List.find?_append,
        bucketFind_eq_none (Bool.eq_false_iff.mpr hhas)]
      simp
  · rw [if_neg hk]
    unfold bucketAdd
    by_cases hhas : bucketHasKey acc kr = true
    · rw [if_pos hhas]
      unfold bucketGet
      rw [bucketFind_map_ne _ _ _ _ hk]
    · rw [if_neg hhas]
      unfold bucketGet
      rw [List.find?_append]
      have hnone : List.find? (fun p => p.1 == k) [(kr, [t])] = none := by
        simp [hk]
      rw [hnone, Option.or_none]

theorem bucketGet_fold (ts : List DatabaseTemplate)
    (acc : List (String × List DatabaseTemplate)) (k : String) :
    bucketGet
        (ts.foldl (fun acc t => bucketAdd acc (jsPropKey t.category) t) acc) k
      = bucketGet acc k ++ ts.filter (fun t => jsPropKey t.category == k) := by
  induction ts generalizing acc with
  | nil => simp
  | cons t rest ih =>
    rw [List.foldl_cons, ih, bucketGet_bucketAdd, List.filter_cons]
    by_cases hk : jsPropKey t.category = k
    · rw [if_pos hk]
      simp [hk, List.append_assoc]
    · rw [if_neg hk]
      simp [hk]

theorem bucketGet_group (templates : List DatabaseTemplate) (k : String) :
    bucketGet (listTemplatesNoQuery templates) k
      = templates.filter (fun t => jsPropKey t.category == k) := by
  have h := bucketGet_fold templates [] k
  simpa [listTemplatesNoQuery, groupTemplatesByCategory, bucketGet] using h

/-- Counterexample to claim C9 as stated: a template with no category field
is grouped under the literal key "undefined", and no "Uncategorized" bucket
exists. -/
theorem listTemplates_uncategorized_counterexample :
    noCategoryTemplate.category = none
    ∧ listTemplatesNoQuery [noCategoryTemplate]
        = [("undefined", [noCategoryTemplate])]
    ∧ bucketHasKey (listTemplatesNoQuery [noCategoryTemplate]) "Uncategorized"
        = false :=
  ⟨rfl, by decide, by decide⟩

/-- Claim C9 (amended): with no query the full catalog is grouped by
category — the bucket at key `k` holds exactly the templates whose grouping
key is `k`, in catalog order — but the grouping key of a template whose
category field is absent is the literal string "undefined" (JavaScript
property-key coercion of `undefined`), not "Uncategorized". -/
theorem listTemplates_grouping (templates : List DatabaseTemplate) :
    (∀ k, bucketGet (listTemplatesNoQuery templates) k
      = templates.filter (fun t => jsPropKey t.category == k))
    ∧ (∀ t ∈ templates, t.category = none →
        t ∈ bucketGet (listTemplatesNoQuery templates) "undefined")
    ∧ jsPropKey none = "undefined" := by
  refine ⟨bucketGet_group templates, ?_, rfl⟩
  intro t ht hc
  rw [bucketGet_group]
  exact List.mem_filter.2 ⟨ht, by simp [jsPropKey, hc]⟩

/-- Witness for C9 (amended) at a one-template catalog with an absent
category. -/
theorem listTemplates_grouping_witness :
    bucketGet (listTemplatesNoQuery [noCategoryTemplate]) "undefined"
      = [noCategoryTemplate]
    ∧ noCategoryTemplate
        ∈ bucketGet (listTemplatesNoQuery [noCategoryTemplate]) "undefined" := by
  have h := listTemplates_grouping [noCategoryTemplate]
  refine ⟨?_, h.2.1 noCategoryTemplate (by decide) rfl⟩
  rw [h.1 "undefined"]
  decide

end RailwayMcp
